import Mathlib

/-!
Shallow embedding of the validation engine of the
Israel National Insurance Form Extractor repository
(`src/validate.py`, class `DataValidator`), together with theorems
checking the natural-language specification against it.

Modelling conventions:
* Python values flowing through the validator are modelled by `Value`
  (strings, integers, nested dicts, `None`).  A Python dict is an
  ordered list of key/value entries, `Fields` (keys are unique in a
  Python dict; `get` returns the first match).
* Python exceptions are modelled by `Except PyErr`; an operation on a
  value of the wrong dynamic type (such as calling `.strip()` on an
  integer) returns `.error`.
* `str.strip()` strips the ASCII whitespace characters Python strips.
* The regular-expression classes `\d` / `\D` of the source are modelled
  over ASCII digits.
* `datetime.now().year` is passed in explicitly as a parameter
  `current_year`; `round(x, 2)` is modelled over exact rationals with
  round-half-to-even.
-/

namespace NIIValidate

set_option maxRecDepth 1000000

mutual

/-- A Python value as handled by the validator: a string, an integer,
a (nested) dict with string keys, or `None`. -/
inductive Value where
  | str (s : String)
  | int (n : Int)
  | dict (fields : Fields)
  | none

/-- The entries of a Python dict, in insertion order. -/
inductive Fields where
  | nil
  | cons (key : String) (v : Value) (rest : Fields)

end

mutual

/-- Decidable equality of `Value`. -/
def Value.decEq : (a b : Value) → Decidable (a = b)
  | .str s, .str t =>
    match String.decEq s t with
    | .isTrue h => .isTrue (by rw [h])
    | .isFalse h => .isFalse (by simp [h])
  | .int m, .int n =>
    match Int.decEq m n with
    | .isTrue h => .isTrue (by rw [h])
    | .isFalse h => .isFalse (by simp [h])
  | .dict fs, .dict gs =>
    match Fields.decEq fs gs with
    | .isTrue h => .isTrue (by rw [h])
    | .isFalse h => .isFalse (by simp [h])
  | .none, .none => .isTrue rfl
  | .str _, .int _ => .isFalse nofun
  | .str _, .dict _ => .isFalse nofun
  | .str _, .none => .isFalse nofun
  | .int _, .str _ => .isFalse nofun
  | .int _, .dict _ => .isFalse nofun
  | .int _, .none => .isFalse nofun
  | .dict _, .str _ => .isFalse nofun
  | .dict _, .int _ => .isFalse nofun
  | .dict _, .none => .isFalse nofun
  | .none, .str _ => .isFalse nofun
  | .none, .int _ => .isFalse nofun
  | .none, .dict _ => .isFalse nofun

/-- Decidable equality of dict entry lists. -/
def Fields.decEq : (a b : Fields) → Decidable (a = b)
  | .nil, .nil => .isTrue rfl
  | .nil, .cons _ _ _ => .isFalse nofun
  | .cons _ _ _, .nil => .isFalse nofun
  | .cons k v r, .cons k2 v2 r2 =>
    match String.decEq k k2, Value.decEq v v2, Fields.decEq r r2 with
    | .isTrue h1, .isTrue h2, .isTrue h3 => .isTrue (by rw [h1, h2, h3])
    | .isFalse h1, _, _ => .isFalse (by simp [h1])
    | _, .isFalse h2, _ => .isFalse (by simp [h2])
    | _, _, .isFalse h3 => .isFalse (by simp [h3])

end

instance : DecidableEq Value := Value.decEq
instance : DecidableEq Fields := Fields.decEq

/-- Build a dict entry list from a Lean list literal. -/
def Fields.ofList : List (String × Value) → Fields
  | [] => .nil
  | (k, v) :: rest => .cons k v (Fields.ofList rest)

/-- Whether a dict has no entries. -/
def Fields.isEmpty : Fields → Bool
  | .nil => true
  | .cons _ _ _ => false

/-- Decidable equality for `Except` results. -/
def exceptDecEq {ε α : Type} [DecidableEq ε] [DecidableEq α] :
    (x y : Except ε α) → Decidable (x = y)
  | .error e, .error f =>
    match decEq e f with
    | .isTrue h => .isTrue (by rw [h])
    | .isFalse h => .isFalse (by simp [h])
  | .ok a, .ok b =>
    match decEq a b with
    | .isTrue h => .isTrue (by rw [h])
    | .isFalse h => .isFalse (by simp [h])
  | .error _, .ok _ => .isFalse nofun
  | .ok _, .error _ => .isFalse nofun

instance {ε α : Type} [DecidableEq ε] [DecidableEq α] : DecidableEq (Except ε α) :=
  exceptDecEq

/-- A Python exception escaping the validator. -/
inductive PyErr where
  | attributeError
  | typeError
deriving DecidableEq, Repr

/-- The set of characters stripped by Python `str.strip()`
(restricted to the ASCII whitespace characters). -/
def pyIsSpace (c : Char) : Bool :=
  c = ' ' || c = '\t' || c = '\n' || c = '\x0d' || c = '\x0b' || c = '\x0c'

/-- Python `str.strip()`: remove leading and trailing whitespace. -/
def pyStrip (s : String) : String :=
  String.mk (((s.data.dropWhile pyIsSpace).reverse.dropWhile pyIsSpace).reverse)

mutual

/-- Python `repr` of a `Value` (used by `str` on non-string values). -/
def pyRepr : Value → String
  | .str s => "\x27" ++ s ++ "\x27"
  | .int n => toString n
  | .none => "None"
  | .dict fs => "\x7b" ++ pyReprEntries fs ++ "\x7d"

/-- Rendered `key: value` entries of a dict, comma separated. -/
def pyReprEntries : Fields → String
  | .nil => ""
  | .cons k v .nil => "\x27" ++ k ++ "\x27: " ++ pyRepr v
  | .cons k v rest => "\x27" ++ k ++ "\x27: " ++ pyRepr v ++ ", " ++ pyReprEntries rest

end

/-- Python `str()` of a `Value` (as used in f-strings and `str(value)`). -/
def pyStr : Value → String
  | .str s => s
  | v => pyRepr v

/-- Python truthiness of a `Value`. -/
def pyTruthy : Value → Bool
  | .str s => !s.data.isEmpty
  | .int n => n != 0
  | .dict fs => !fs.isEmpty
  | .none => false

/-- Python truthiness of a value that is either a `bool` or `None`
(the dynamic type of the `valid` flag of a finding). -/
def pyOptTruthy : Option Bool → Bool
  | some b => b
  | _ => false

/-- `data.get(key, dflt)` on a Python dict. -/
def getD (data : Fields) (key : String) (dflt : Value) : Value :=
  match data with
  | .nil => dflt
  | .cons k v rest => if k == key then v else getD rest key dflt

/-- `v.strip()` on a dynamically typed value: `AttributeError` unless
`v` is a string. -/
def pyStripV (v : Value) : Except PyErr String :=
  match v with
  | .str s => .ok (pyStrip s)
  | _ => .error .attributeError

/-- Passing a dynamically typed value to `re.sub`/`re.match`:
`TypeError` unless it is a string. -/
def reStrArg (v : Value) : Except PyErr String :=
  match v with
  | .str s => .ok s
  | _ => .error .typeError

example : pyStrip "  a b\t\n" = "a b" := by decide
example : pyTruthy (Value.str "") = false := by decide
example : getD (Fields.ofList [("a", Value.int 3)]) "b" Value.none = Value.none := by
  decide

/-- One entry of `validation_results`: field name, the examined value,
the `valid` flag (`Option Bool` because `_validate_israeli_id` can
return Python `None`), and the message. -/
structure Finding where
  field : String
  value : Value
  valid : Option Bool
  message : String
deriving DecidableEq

/-- The dict returned by `validate_extracted_data`.  Scores are exact
rationals. -/
structure Report where
  overall_score : ℚ
  total_checks : Nat
  passed_checks : Nat
  validation_details : List Finding
  completeness_score : ℚ
  summary : String
deriving DecidableEq

/-- The `DataValidator` instance state: its `validation_results` buffer. -/
structure DataValidator where
  validation_results : List Finding
deriving DecidableEq

/-- A freshly constructed `DataValidator()`. -/
def DataValidator.init : DataValidator := ⟨[]⟩

/-- `_validate_israeli_id`: strip non-digits; return `False` when fewer
or more than 9 digits remain; otherwise the function body ends without
a `return` statement (the checksum code is commented out), so Python
returns `None`. -/
def _validate_israeli_id (id_number : String) : Option Bool :=
  let id_clean := String.mk (id_number.data.filter Char.isDigit)
  if id_clean.length ≠ 9 then some false
  else Option.none

/-- `_validate_israeli_phone`: keep only digits and `+`, drop one
leading `+972` / `972` / `0`, then check length and leading `5`. -/
def _validate_israeli_phone (phone : String) (is_mobile : Bool) : Bool :=
  let phone_clean : List Char := phone.data.filter (fun c => c.isDigit || c == '+')
  let phone_clean :=
    if ['+', '9', '7', '2'].isPrefixOf phone_clean then phone_clean.drop 4
    else if ['9', '7', '2'].isPrefixOf phone_clean then phone_clean.drop 3
    else if ['0'].isPrefixOf phone_clean then phone_clean.drop 1
    else phone_clean
  if is_mobile then
    phone_clean.length == 9 && ['5'].isPrefixOf phone_clean
  else
    (phone_clean.length == 8 || phone_clean.length == 9) && !(['5'].isPrefixOf phone_clean)

/-- Python `int(x)` on a string: optional sign then decimal digits,
surrounding whitespace allowed; `Option.none` models a `ValueError`. -/
def pyStrToInt (s : String) : Option Int :=
  let l := (pyStrip s).data
  let signed : Int × List Char :=
    match l with
    | '-' :: rest => (-1, rest)
    | '+' :: rest => (1, rest)
    | _ => (1, l)
  if signed.2 ≠ [] ∧ signed.2.all Char.isDigit then
    some (signed.1 * (signed.2.foldl (fun a c => a * 10 + (c.toNat - 48)) 0 : Nat))
  else Option.none

/-- Python `int(x)` on a dynamically typed value; `Option.none` models
the `ValueError` / `TypeError` caught by `_validate_date_object`. -/
def pyToInt : Value → Option Int
  | .int n => some n
  | .str s => pyStrToInt s
  | _ => Option.none

/-- Leap-year rule used by `datetime`. -/
def isLeapYear (y : Int) : Bool :=
  y % 4 == 0 && (y % 100 != 0 || y % 400 == 0)

/-- Number of days of a month, as `datetime` accepts them. -/
def daysInMonth (m y : Int) : Int :=
  if m == 2 then (if isLeapYear y then 29 else 28)
  else if m == 4 || m == 6 || m == 9 || m == 11 then 30
  else 31

/-- Success of the `datetime(year, month, day)` constructor: it raises
`ValueError` outside `1 ≤ year ≤ 9999`, `1 ≤ month ≤ 12`,
`1 ≤ day ≤ days in that month`. -/
def datetimeOK (y m d : Int) : Bool :=
  1 ≤ y && y ≤ 9999 && 1 ≤ m && m ≤ 12 && 1 ≤ d && d ≤ daysInMonth m y

/-- `_validate_date_object`: returns the `(is_valid, message)` pair.
`current_year` stands for `datetime.now().year`. -/
def _validate_date_object (current_year : Int) (date_obj : Fields) :
    Bool × String :=
  let day := getD date_obj "day" (.str "")
  let month := getD date_obj "month" (.str "")
  let year := getD date_obj "year" (.str "")
  if !(pyTruthy day && pyTruthy month && pyTruthy year) then
    (false, "Incomplete date information")
  else
    match pyToInt day, pyToInt month, pyToInt year with
    | some day_int, some month_int, some year_int =>
      if !(1 ≤ day_int && day_int ≤ 31) then (false, "Invalid day")
      else if !(1 ≤ month_int && month_int ≤ 12) then (false, "Invalid month")
      else if !(1900 ≤ year_int && year_int ≤ current_year + 1) then (false, "Invalid year")
      else if datetimeOK year_int month_int day_int then (true, "Valid date")
      else (false, "Invalid date format")
    | _, _, _ => (false, "Invalid date format")

/-- `_validate_time_format`: the stripped string must match
`^\d{1,2}:\d{2}$`, `^\d{1,2}\.\d{2}$` or `^\d{1,2}:\d{2}:\d{2}$`. -/
def _validate_time_format (time_str : String) : Bool :=
  match (pyStrip time_str).data with
  | [a, ':', c, d] => a.isDigit && c.isDigit && d.isDigit
  | [a, b, ':', c, d] => a.isDigit && b.isDigit && c.isDigit && d.isDigit
  | [a, '.', c, d] => a.isDigit && c.isDigit && d.isDigit
  | [a, b, '.', c, d] => a.isDigit && b.isDigit && c.isDigit && d.isDigit
  | [a, ':', c, d, ':', e, f] =>
    a.isDigit && c.isDigit && d.isDigit && e.isDigit && f.isDigit
  | [a, b, ':', c, d, ':', e, f] =>
    a.isDigit && b.isDigit && c.isDigit && d.isDigit && e.isDigit && f.isDigit
  | _ => false

/-- The accepted gender strings of `_validate_personal_info`. -/
def valid_genders : List String := ["זכר", "נקבה", "male", "female", "M", "F", "ז", "נ"]

/-- `_validate_personal_info`: conditional ID finding, then firstName,
lastName and gender findings.  Calling `.strip()` on a non-string
raises; passing a non-string to `re.sub` raises. -/
def _validate_personal_info (data : Fields) :
    Except PyErr (List Finding) := do
  let id_number := getD data "idNumber" (.str "")
  let idFindings ←
    if pyTruthy id_number then do
      let s ← reStrArg id_number
      let is_valid_id := _validate_israeli_id s
      pure [⟨"idNumber", id_number, is_valid_id,
        if pyOptTruthy is_valid_id then "Valid Israeli ID format"
        else "Invalid Israeli ID format"⟩]
    else pure ([] : List Finding)
  let first_name := getD data "firstName" (.str "")
  let last_name := getD data "lastName" (.str "")
  let fs ← pyStripV first_name
  let ls ← pyStripV last_name
  let gender := getD data "gender" (.str "")
  let gs ← pyStripV gender
  let is_valid_gender := valid_genders.contains gs
  pure (idFindings ++
    [⟨"firstName", first_name, some (decide (0 < fs.length)),
      if fs.isEmpty then "First name missing" else "First name provided"⟩,
     ⟨"lastName", last_name, some (decide (0 < ls.length)),
      if ls.isEmpty then "Last name missing" else "Last name provided"⟩,
     ⟨"gender", gender, some is_valid_gender,
      if is_valid_gender then "Valid gender value" else "Invalid or missing gender"⟩])

/-- One iteration of the `_validate_dates` loop: skipped when the field
value is not a dict. -/
def dateFinding (current_year : Int) (data : Fields)
    (field_name field_label : String) : List Finding :=
  match getD data field_name (.dict .nil) with
  | .dict date_obj =>
    let r := _validate_date_object current_year date_obj
    [⟨field_name,
      .str (pyStr (getD date_obj "day" (.str "")) ++ "/" ++
            pyStr (getD date_obj "month" (.str "")) ++ "/" ++
            pyStr (getD date_obj "year" (.str ""))),
      some r.1, field_label ++ ": " ++ r.2⟩]
  | _ => []

/-- `_validate_dates`: the four date fields in order. -/
def _validate_dates (current_year : Int) (data : Fields) :
    List Finding :=
  dateFinding current_year data "dateOfBirth" "Date of birth" ++
  dateFinding current_year data "dateOfInjury" "Date of injury" ++
  dateFinding current_year data "formFillingDate" "Form filling date" ++
  dateFinding current_year data "formReceiptDateAtClinic" "Form receipt date"

/-- `_validate_contact_info`: conditional landline and mobile findings,
then the address finding (skipped when `address` is not a dict). -/
def _validate_contact_info (data : Fields) :
    Except PyErr (List Finding) := do
  let landline := getD data "landlinePhone" (.str "")
  let mobile := getD data "mobilePhone" (.str "")
  let lf ←
    if pyTruthy landline then do
      let s ← reStrArg landline
      let ok := _validate_israeli_phone s false
      pure [⟨"landlinePhone", landline, some ok,
        if ok then "Valid landline format" else "Invalid landline format"⟩]
    else pure ([] : List Finding)
  let mf ←
    if pyTruthy mobile then do
      let s ← reStrArg mobile
      let ok := _validate_israeli_phone s true
      pure [⟨"mobilePhone", mobile, some ok,
        if ok then "Valid mobile format" else "Invalid mobile format"⟩]
    else pure ([] : List Finding)
  let af ←
    match getD data "address" (.dict .nil) with
    | .dict address => do
      let street ← pyStripV (getD address "street" (.str ""))
      let city ← pyStripV (getD address "city" (.str ""))
      let has_street := !street.isEmpty
      let has_city := !city.isEmpty
      pure [(⟨"address",
        .str (pyStr (getD address "street" (.str "")) ++ " " ++
              pyStr (getD address "houseNumber" (.str "")) ++ ", " ++
              pyStr (getD address "city" (.str ""))),
        some (has_street && has_city),
        if has_street && has_city then "Address has street and city"
        else "Incomplete address information"⟩ : Finding)]
    | _ => pure ([] : List Finding)
  pure (lf ++ mf ++ af)

/-- `_validate_accident_info`: description and body-part findings,
then a conditional time-of-injury finding. -/
def _validate_accident_info (data : Fields) :
    Except PyErr (List Finding) := do
  let description := getD data "accidentDescription" (.str "")
  let ds ← pyStripV description
  let injured_part := getD data "injuredBodyPart" (.str "")
  let ips ← pyStripV injured_part
  let time_of_injury := getD data "timeOfInjury" (.str "")
  let tf ←
    if pyTruthy time_of_injury then do
      let s ← pyStripV time_of_injury
      let ok := _validate_time_format s
      pure [(⟨"timeOfInjury", time_of_injury, some ok,
        if ok then "Valid time format" else "Invalid time format"⟩ : Finding)]
    else pure ([] : List Finding)
  pure ([⟨"accidentDescription", description, some (decide (10 < ds.length)),
          if 10 < ds.length then "Adequate accident description"
          else "Missing or insufficient accident description"⟩,
         ⟨"injuredBodyPart", injured_part, some (decide (0 < ips.length)),
          if ips.isEmpty then "Injured body part not specified"
          else "Injured body part specified"⟩] ++ tf)

/-- Whether a leaf value counts as filled in `_calculate_completeness`:
the Python test `value and str(value).strip()`. -/
def leafFilled (v : Value) : Bool :=
  pyTruthy v && !(pyStrip (pyStr v)).isEmpty

mutual

/-- The inner `count_fields` helper of `_calculate_completeness`,
returning `(total_fields, filled_fields)`. -/
def count_fields : Value → Nat × Nat
  | .dict fs => count_fields_entries fs
  | .str s => (1, if (pyStrip s).isEmpty then 0 else 1)
  | _ => (0, 0)

/-- The `for key, value in obj.items()` loop of `count_fields`:
recurse into dict values, count every other value as a leaf. -/
def count_fields_entries : Fields → Nat × Nat
  | .nil => (0, 0)
  | .cons _ (.dict fs) rest =>
    let inner := count_fields_entries fs
    let tail := count_fields_entries rest
    (inner.1 + tail.1, inner.2 + tail.2)
  | .cons _ v rest =>
    let tail := count_fields_entries rest
    (1 + tail.1, (if leafFilled v then 1 else 0) + tail.2)

end

/-- `_calculate_completeness`: percentage of filled leaf fields. -/
def _calculate_completeness (data : Fields) : ℚ :=
  let c := count_fields_entries data
  if 0 < c.1 then (c.2 : ℚ) / (c.1 : ℚ) * 100 else 0

/-- `_generate_summary` over a findings list. -/
def _generate_summary (results : List Finding) : String :=
  let issues := results.filter (fun r => !pyOptTruthy r.valid)
  if issues.isEmpty then "All validations passed successfully."
  else
    let header := "Found " ++ toString issues.length ++ " validation issues:\n"
    let s := (issues.take 5).foldl
      (fun acc i => acc ++ "- " ++ i.field ++ ": " ++ i.message ++ "\n") header
    if 5 < issues.length then
      s ++ "... and " ++ toString (issues.length - 5) ++ " more issues."
    else s

/-- Round-half-to-even to an integer (Python `round` on exact values). -/
def round_half_even (q : ℚ) : Int :=
  if q - ⌊q⌋ < 1 / 2 then ⌊q⌋
  else if 1 / 2 < q - ⌊q⌋ then ⌊q⌋ + 1
  else if ⌊q⌋ % 2 == 0 then ⌊q⌋ else ⌊q⌋ + 1

/-- Python `round(x, 2)` modelled over exact rationals. -/
def pyRound2 (q : ℚ) : ℚ := (round_half_even (q * 100) : ℚ) / 100

/-- The aggregation block of `validate_extracted_data` (lines 33-44 of
`validate.py`): scores, counts and summary over the accumulated
`validation_results`. -/
def reportOf (data : Fields) (validation_results : List Finding) :
    Report :=
  let total_checks := validation_results.length
  let passed_checks := validation_results.countP (fun r => pyOptTruthy r.valid)
  let overall_score : ℚ :=
    if 0 < total_checks then (passed_checks : ℚ) / (total_checks : ℚ) * 100 else 0
  { overall_score := pyRound2 overall_score
    total_checks := total_checks
    passed_checks := passed_checks
    validation_details := validation_results
    completeness_score := _calculate_completeness data
    summary := _generate_summary validation_results }

/-- `validate_extracted_data`: the public entry point.  `current_year`
stands for `datetime.now().year`; the result pairs the returned report
dict with the instance state after the call.  The buffer is reset to
`[]` at the start of the call before any finding is appended, so the
incoming `self` state is never read. -/
def validate_extracted_data (current_year : Int) (self : DataValidator)
    (data : Fields) : Except PyErr (Report × DataValidator) := do
  let reset : List Finding := []
  let personal ← _validate_personal_info data
  let dates := _validate_dates current_year data
  let contact ← _validate_contact_info data
  let accident ← _validate_accident_info data
  let validation_results := reset ++ personal ++ dates ++ contact ++ accident
  pure (reportOf data validation_results, ⟨validation_results⟩)

/-- Spec-side: the phone remainder described by the spec — "removing
all characters other than digits and `+` and then dropping one leading
`+972`, `972`, or `0` prefix". -/
def specPhoneRemainder (phone : String) : List Char :=
  let kept := phone.data.filter (fun c => c.isDigit || c == '+')
  if ['+', '9', '7', '2'].isPrefixOf kept then kept.drop 4
  else if ['9', '7', '2'].isPrefixOf kept then kept.drop 3
  else if ['0'].isPrefixOf kept then kept.drop 1
  else kept

/-- Spec-side, claim C4 as stated: mobile valid iff the remaining
digit count is exactly 9 and the remainder starts with `5`. -/
def specMobileValid (phone : String) : Prop :=
  (specPhoneRemainder phone).countP Char.isDigit = 9 ∧
  (specPhoneRemainder phone).head? = some '5'

mutual

/-- Spec-side: the leaves of one value — a non-mapping value is one
leaf, a mapping contributes the leaves of its entries. -/
def leavesOfValue : Value → List Value
  | .dict fs => leavesEntries fs
  | v => [v]

/-- Spec-side: the leaf (non-mapping) values of a record, in order,
descending recursively into nested mappings. -/
def leavesEntries : Fields → List Value
  | .nil => []
  | .cons _ (.dict fs) rest => leavesEntries fs ++ leavesEntries rest
  | .cons _ v rest => v :: leavesEntries rest

end

instance (p : String) : Decidable (specMobileValid p) := by
  unfold specMobileValid; infer_instance

/-- Spec-side: a real Gregorian calendar date, as the spec's "must
form a real calendar date" requires (Feb 29 only in leap years, at
most 30 days in April, June, September, November). -/
def specRealCalendarDate (d m y : Int) : Prop :=
  1 ≤ m ∧ m ≤ 12 ∧ 1 ≤ d ∧
  d ≤ (if m = 2 then (if y % 4 = 0 ∧ (y % 100 ≠ 0 ∨ y % 400 = 0) then 29 else 28)
       else if m = 4 ∨ m = 6 ∨ m = 9 ∨ m = 11 then 30 else 31)

instance (d m y : Int) : Decidable (specRealCalendarDate d m y) := by
  unfold specRealCalendarDate; infer_instance

/-- Spec-side, claim C6 as stated: percentage of leaves whose string
rendering is non-empty after trimming (0 when there are no leaves). -/
def specCompletenessUnamended (data : Fields) : ℚ :=
  let ls := leavesEntries data
  if 0 < ls.length then
    ((ls.countP (fun v => !(pyStrip (pyStr v)).isEmpty) : ℚ) / (ls.length : ℚ)) * 100
  else 0

/-- Spec-side: the summary format described by the spec, with the
corrected trailer `"... and K more issues."`. -/
def specSummary (results : List Finding) : String :=
  let issues := results.filter (fun r => !pyOptTruthy r.valid)
  if issues.length = 0 then "All validations passed successfully."
  else
    "Found " ++ toString issues.length ++ " validation issues:\n" ++
    String.join ((issues.take 5).map (fun i => "- " ++ i.field ++ ": " ++ i.message ++ "\n")) ++
    (if 5 < issues.length then
      "... and " ++ toString (issues.length - 5) ++ " more issues."
     else "")

/-- Whether a dynamically typed value is a Python `str`. -/
def isStrB : Value → Bool
  | .str _ => true
  | _ => false

/-- The amended well-formedness condition of claim C2: every checked
scalar field that the validator calls a string method on is a string.
Always-stripped fields must be strings (their `.get` default makes a
missing field the empty string); conditionally checked fields must be
strings whenever they are truthy; street and city must be strings
whenever `address` is a dict. -/
def noTypeErrors (data : Fields) : Bool :=
  isStrB (getD data "firstName" (.str "")) &&
  isStrB (getD data "lastName" (.str "")) &&
  isStrB (getD data "gender" (.str "")) &&
  isStrB (getD data "accidentDescription" (.str "")) &&
  isStrB (getD data "injuredBodyPart" (.str "")) &&
  (!pyTruthy (getD data "idNumber" (.str "")) || isStrB (getD data "idNumber" (.str ""))) &&
  (!pyTruthy (getD data "landlinePhone" (.str "")) || isStrB (getD data "landlinePhone" (.str ""))) &&
  (!pyTruthy (getD data "mobilePhone" (.str "")) || isStrB (getD data "mobilePhone" (.str ""))) &&
  (!pyTruthy (getD data "timeOfInjury" (.str "")) || isStrB (getD data "timeOfInjury" (.str ""))) &&
  (match getD data "address" (.dict .nil) with
   | .dict a => isStrB (getD a "street" (.str "")) && isStrB (getD a "city" (.str ""))
   | _ => true)

example : _validate_israeli_id "123456789" = Option.none := by decide
example : _validate_israeli_id "12345" = some false := by decide
example : _validate_israeli_phone "050-1234567" true = true := by decide
example : _validate_israeli_phone "021234567" false = true := by decide
example : _validate_israeli_phone "0501234567" false = false := by decide
example : (_validate_date_object 2026 (.ofList [("day", .int 29), ("month", .int 2), ("year", .int 2024)])).1 = true := by decide
example : (_validate_date_object 2026 (.ofList [("day", .int 29), ("month", .int 2), ("year", .int 2023)])).1 = false := by decide
example : _validate_time_format "9:30" = true := by decide
example : _validate_time_format "12.345" = false := by decide

/-- C1.  The spec claims a 9-digit ID (after stripping non-digits)
yields a finding whose valid flag is true.  In the code,
`_validate_israeli_id` has no `return` on the 9-digit path (the
checksum block is commented out), so Python returns `None`: the
finding's flag is `None`, it is counted as failed and its message is
the invalid-format one.  `"123456789"` is such an input. -/
theorem c1_nine_digit_id_flag_is_none :
    ("123456789".data.filter Char.isDigit).length = 9 ∧
    (validate_extracted_data 2026 DataValidator.init
        (.ofList [("idNumber", Value.str "123456789")])).map
      (fun p => (p.1.validation_details.filter (fun f => f.field == "idNumber")).map
        (fun f => (f.valid, pyOptTruthy f.valid, f.message)))
    = .ok [(Option.none, false, "Invalid Israeli ID format")] := by
  decide

/-- C2 counterexample.  The claim says `validate` never propagates an
exception even when a single field's value has a malformed type such
as a non-string scalar; but `{"firstName": 5}` makes
`first_name.strip()` raise `AttributeError`. -/
theorem c2_nonstring_scalar_raises :
    validate_extracted_data 2026 DataValidator.init
      (.ofList [("firstName", Value.int 5)])
    = .error PyErr.attributeError := by
  decide

/-- C4 counterexample.  For the non-empty mobile string `"501234567+"`
the remainder after stripping and prefix-dropping is `"501234567+"`
itself: its digit count is 9 and it starts with `5`, so the claim as
stated says the mobile finding is valid — but the code compares the
length of the remainder (10, counting the surviving `+`), so the
finding is invalid. -/
theorem c4_digit_count_counterexample :
    specMobileValid "501234567+" ∧
    (validate_extracted_data 2026 DataValidator.init
        (.ofList [("mobilePhone", Value.str "501234567+")])).map
      (fun p => (p.1.validation_details.filter (fun f => f.field == "mobilePhone")).map
        Finding.valid)
    = .ok [some false] := by
  decide

/-- C5 counterexample.  A record with exactly 7 failing findings: the
summary's trailer is `"... and 2 more issues."` (with a space after
the ellipsis), so it does not end with the claimed `"...and 2 more
issues."`. -/
theorem c5_trailer_counterexample :
    (validate_extracted_data 2026 DataValidator.init
        (.ofList [("firstName", Value.str "A"), ("lastName", Value.str "B"),
                  ("gender", Value.str "M")])).map
      (fun p => ((p.1.validation_details.filter (fun f => !pyOptTruthy f.valid)).length,
                 "...and 2 more issues.".data.isSuffixOf p.1.summary.data,
                 "... and 2 more issues.".data.isSuffixOf p.1.summary.data))
    = .ok (7, false, true) := by
  decide

/-- C6 counterexample.  The claim says the completeness score counts a
leaf as filled whenever its string rendering is non-empty after
trimming; but `_calculate_completeness` additionally requires the
value to be truthy (`if value and str(value).strip()`), so the falsy
leaf `0` — whose rendering `"0"` is non-empty — is not counted:
`{"a": 0}` scores 0, while the claimed formula gives 100. -/
theorem c6_falsy_leaf_counterexample :
    _calculate_completeness (.ofList [("a", Value.int 0)]) = 0 ∧
    specCompletenessUnamended (.ofList [("a", Value.int 0)]) = 100 := by
  have h1 : count_fields_entries (.ofList [("a", Value.int 0)]) = (1, 0) := by decide
  have h2 : leavesEntries (.ofList [("a", Value.int 0)]) = [Value.int 0] := by decide
  have h3 : (!(pyStrip (pyStr (Value.int 0))).isEmpty) = true := by decide
  constructor
  · simp [_calculate_completeness, h1]
  · simp [specCompletenessUnamended, h2, h3]

/-- The accumulating counters of `count_fields` compute the length of
the leaf list and the number of filled leaves. -/
theorem count_fields_entries_eq :
    (fs : Fields) → count_fields_entries fs =
      ((leavesEntries fs).length, (leavesEntries fs).countP leafFilled)
  | .nil => rfl
  | .cons k (.dict g) rest => by
    have h1 := count_fields_entries_eq g
    have h2 := count_fields_entries_eq rest
    simp [count_fields_entries, leavesEntries, h1, h2, List.countP_append]
  | .cons k (.str s) rest => by
    have h2 := count_fields_entries_eq rest
    simp [count_fields_entries, leavesEntries, h2, List.countP_cons]
    omega
  | .cons k (.int n) rest => by
    have h2 := count_fields_entries_eq rest
    simp [count_fields_entries, leavesEntries, h2, List.countP_cons]
    omega
  | .cons k .none rest => by
    have h2 := count_fields_entries_eq rest
    simp [count_fields_entries, leavesEntries, h2, List.countP_cons]
    omega

/-- C6 (amended).  `completeness_score` equals the percentage of leaf
values across the entire record — descending recursively into nested
mappings — that are both truthy and have a non-empty trimmed string
rendering (`leafFilled`); it is 0 when the record has no leaf
fields (the `else` branch of the formula). -/
theorem c6_completeness_formula (data : Fields) :
    _calculate_completeness data =
      if 0 < (leavesEntries data).length then
        ((leavesEntries data).countP leafFilled : ℚ) / ((leavesEntries data).length : ℚ) * 100
      else 0 := by
  simp [_calculate_completeness, count_fields_entries_eq data]

/-- Appending issue lines with a left fold equals appending the joined
rendered lines. -/
theorem foldl_issue_lines :
    (l : List Finding) → (acc : String) →
    l.foldl (fun acc i => acc ++ "- " ++ i.field ++ ": " ++ i.message ++ "\n") acc
      = acc ++ String.join (l.map (fun i => "- " ++ i.field ++ ": " ++ i.message ++ "\n"))
  | [], acc => by
    apply String.ext
    simp
  | a :: l, acc => by
    rw [List.foldl_cons, List.map_cons, foldl_issue_lines l]
    apply String.ext
    simp [String.data_append]

/-- C5 (amended).  The summary is the all-passed message when no
finding fails, and otherwise the `"Found N validation issues:"` header
followed by at most 5 issue lines and — when N exceeds 5 — the trailer
`"... and K more issues."` with `K = N - 5` (the corrected trailer has
a space after the ellipsis).  A record with exactly 7 failures lists
exactly 5 lines and carries the trailer `"... and 2 more issues."`. -/
theorem c5_summary_format :
    (∀ results : List Finding, _generate_summary results = specSummary results)
    ∧ (validate_extracted_data 2026 DataValidator.init
        (.ofList [("firstName", Value.str "A"), ("lastName", Value.str "B"),
                  ("gender", Value.str "M")])).map
        (fun p => ((p.1.validation_details.filter (fun f => !pyOptTruthy f.valid)).length,
                   ((p.1.validation_details.filter (fun f => !pyOptTruthy f.valid)).take 5).length,
                   "... and 2 more issues.".data.isSuffixOf p.1.summary.data))
      = .ok (7, 5, true)
    ∧ (validate_extracted_data 2026 DataValidator.init
        (.ofList [("firstName", Value.str "A"), ("lastName", Value.str "B"),
                  ("gender", Value.str "M")])).map (fun p => p.1.summary)
      = .ok "Found 7 validation issues:\n- dateOfBirth: Date of birth: Incomplete date information\n- dateOfInjury: Date of injury: Incomplete date information\n- formFillingDate: Form filling date: Incomplete date information\n- formReceiptDateAtClinic: Form receipt date: Incomplete date information\n- address: Incomplete address information\n... and 2 more issues." := by
  refine ⟨?_, by decide, by decide⟩
  intro results
  unfold _generate_summary specSummary
  cases hI : results.filter (fun r => !pyOptTruthy r.valid) with
  | nil => simp
  | cons a l =>
    simp only [List.isEmpty_cons, List.length_cons, Nat.succ_ne_zero, Bool.false_eq_true,
      if_false]
    rw [foldl_issue_lines]
    split <;> (apply String.ext; simp [String.data_append])

/-- C9.  `validate_extracted_data` never reads the incoming buffer
(it is reset first): calls from any two states agree, and re-running
the call from the state a successful call left behind returns the
identical report and state. -/
theorem c9_validate_state_independent :
    (∀ (cy : Int) (s1 s2 : DataValidator) (data : Fields),
        validate_extracted_data cy s1 data = validate_extracted_data cy s2 data)
    ∧ (∀ (cy : Int) (s : DataValidator) (data : Fields),
        match validate_extracted_data cy s data with
        | .ok (r, s2) => validate_extracted_data cy s2 data = .ok (r, s2)
        | .error _ => True) := by
  constructor
  · intro cy s1 s2 data
    rfl
  · intro cy s data
    cases h : validate_extracted_data cy s data with
    | ok p =>
      cases p with
      | mk r s2 =>
        show validate_extracted_data cy s2 data = .ok (r, s2)
        have e : validate_extracted_data cy s2 data = validate_extracted_data cy s data := rfl
        rw [e, h]
    | error e => trivial

/-- The `valid` flag is truthy exactly when it is Python `True`. -/
theorem pyOptTruthy_eq (o : Option Bool) : pyOptTruthy o = decide (o = some true) := by
  cases o with
  | none => rfl
  | some b => cases b <;> rfl

/-- `passed_checks` counts the findings whose flag is `True`. -/
theorem countP_truthy_eq_length_filter (l : List Finding) :
    l.countP (fun r => pyOptTruthy r.valid)
      = (l.filter (fun f => f.valid = some true)).length := by
  rw [List.countP_eq_length_filter]
  congr 1
  apply List.filter_congr
  intro f _
  rw [pyOptTruthy_eq]

/-- Round-half-to-even keeps values inside `[0, n]`. -/
theorem round_half_even_bounds (q : ℚ) (n : Int) (h0 : 0 ≤ q) (hn : q ≤ (n : ℚ)) :
    0 ≤ round_half_even q ∧ round_half_even q ≤ n := by
  unfold round_half_even
  have hf0 : 0 ≤ ⌊q⌋ := Int.floor_nonneg.mpr h0
  have hfq : (⌊q⌋ : ℚ) ≤ q := Int.floor_le q
  have hfn : ⌊q⌋ ≤ n := by
    have := Int.floor_le_floor hn
    rwa [Int.floor_intCast] at this
  split_ifs with h1 h2 h3
  · exact ⟨hf0, hfn⟩
  · have hlt : (⌊q⌋ : ℚ) < (n : ℚ) := by linarith
    have : ⌊q⌋ < n := by exact_mod_cast hlt
    constructor <;> omega
  · exact ⟨hf0, hfn⟩
  · have hge : (1 : ℚ) / 2 ≤ q - ⌊q⌋ := le_of_not_lt h1
    have hlt : (⌊q⌋ : ℚ) < (n : ℚ) := by linarith
    have : ⌊q⌋ < n := by exact_mod_cast hlt
    constructor <;> omega

/-- `round(x, 2)` keeps values inside `[0, 100]`. -/
theorem pyRound2_bounds (q : ℚ) (h0 : 0 ≤ q) (h1 : q ≤ 100) :
    0 ≤ pyRound2 q ∧ pyRound2 q ≤ 100 := by
  unfold pyRound2
  have h := round_half_even_bounds (q * 100) 10000 (by positivity) (by push_cast; linarith)
  have hc0 : (0 : ℚ) ≤ (round_half_even (q * 100) : ℚ) := by exact_mod_cast h.1
  have hc1 : (round_half_even (q * 100) : ℚ) ≤ 10000 := by exact_mod_cast h.2
  constructor
  · positivity
  · rw [div_le_iff (by norm_num : (0:ℚ) < 100)]
    linarith

/-- A ratio of a count over a larger count, times 100, lies in `[0, 100]`. -/
theorem score_bounds (p t : Nat) (hpt : p ≤ t) :
    0 ≤ (if 0 < t then (p : ℚ) / (t : ℚ) * 100 else 0) ∧
    (if 0 < t then (p : ℚ) / (t : ℚ) * 100 else 0) ≤ 100 := by
  split_ifs with ht
  · have ht2 : (0 : ℚ) < (t : ℚ) := by exact_mod_cast ht
    have hr : (p : ℚ) / (t : ℚ) ≤ 1 := by
      rw [div_le_one ht2]
      exact_mod_cast hpt
    have hr0 : (0 : ℚ) ≤ (p : ℚ) / (t : ℚ) := by positivity
    constructor <;> linarith
  · norm_num

/-- The completeness score lies in `[0, 100]`. -/
theorem completeness_bounds (data : Fields) :
    0 ≤ _calculate_completeness data ∧ _calculate_completeness data ≤ 100 := by
  unfold _calculate_completeness
  rw [count_fields_entries_eq]
  exact score_bounds _ _ (List.countP_le_length _)

/-- A successful `validate_extracted_data` call returns the report
aggregated from the findings it stores in the buffer. -/
theorem validate_ok_shape (cy : Int) (self : DataValidator) (data : Fields)
    (r : Report) (s2 : DataValidator)
    (h : validate_extracted_data cy self data = .ok (r, s2)) :
    r = reportOf data s2.validation_results := by
  unfold validate_extracted_data at h
  cases hp : _validate_personal_info data with
  | error e => rw [hp] at h; simp [Bind.bind, Except.bind] at h
  | ok p =>
    cases hc : _validate_contact_info data with
    | error e => rw [hp, hc] at h; simp [Bind.bind, Except.bind] at h
    | ok c =>
      cases ha : _validate_accident_info data with
      | error e => rw [hp, hc, ha] at h; simp [Bind.bind, Except.bind] at h
      | ok a =>
        rw [hp, hc, ha] at h
        simp [Bind.bind, Except.bind, Pure.pure, Except.pure] at h
        rw [← h.1, ← h.2]

/-- C8.  Every report returned by `validate_extracted_data` has both
scores within `[0, 100]`, `total_checks` equal to the number of
findings, and `passed_checks` equal to the number of findings whose
valid flag is `True`. -/
theorem c8_report_invariants (cy : Int) (self : DataValidator) (data : Fields) :
    match validate_extracted_data cy self data with
    | .ok (r, _) =>
        0 ≤ r.overall_score ∧ r.overall_score ≤ 100 ∧
        0 ≤ r.completeness_score ∧ r.completeness_score ≤ 100 ∧
        r.total_checks = r.validation_details.length ∧
        r.passed_checks
          = (r.validation_details.filter (fun f => f.valid = some true)).length
    | .error _ => True := by
  cases h : validate_extracted_data cy self data with
  | error e => trivial
  | ok q =>
    cases q with
    | mk r s2 =>
      show 0 ≤ r.overall_score ∧ r.overall_score ≤ 100 ∧
        0 ≤ r.completeness_score ∧ r.completeness_score ≤ 100 ∧
        r.total_checks = r.validation_details.length ∧
        r.passed_checks
          = (r.validation_details.filter (fun f => f.valid = some true)).length
      have hr := validate_ok_shape cy self data r s2 h
      subst hr
      have hsb := score_bounds
        (s2.validation_results.countP (fun f => pyOptTruthy f.valid))
        s2.validation_results.length (List.countP_le_length _)
      have hob := pyRound2_bounds
        (if 0 < s2.validation_results.length then
          ((s2.validation_results.countP (fun f => pyOptTruthy f.valid)) : ℚ) /
            (s2.validation_results.length : ℚ) * 100
        else 0) hsb.1 hsb.2
      have hcb := completeness_bounds data
      exact ⟨hob.1, hob.2, hcb.1, hcb.2, rfl, countP_truthy_eq_length_filter _⟩

/-- C3.  A date finding is invalid when a component is empty or
absent; for integer components it is valid exactly when day, month and
year are within the claimed ranges and form a real calendar date;
`31/4/2024` is rejected as a non-real date, `29/2/2024` is accepted
(leap year), `29/2/2023` is rejected; and the finding produced for a
date field carries `_validate_date_object`'s verdict. -/
theorem c3_date_validation :
    (∀ (cy : Int) (date_obj : Fields),
        (pyTruthy (getD date_obj "day" (.str "")) = false ∨
         pyTruthy (getD date_obj "month" (.str "")) = false ∨
         pyTruthy (getD date_obj "year" (.str "")) = false) →
        (_validate_date_object cy date_obj).1 = false)
    ∧ (∀ (cy d m y : Int), cy ≤ 9998 →
        ((_validate_date_object cy
            (.ofList [("day", .int d), ("month", .int m), ("year", .int y)])).1 = true
          ↔ (1 ≤ d ∧ d ≤ 31 ∧ 1 ≤ m ∧ m ≤ 12 ∧ 1900 ≤ y ∧ y ≤ cy + 1 ∧
             specRealCalendarDate d m y)))
    ∧ (_validate_date_object 2026
        (.ofList [("day", .int 31), ("month", .int 4), ("year", .int 2024)]))
        = (false, "Invalid date format")
    ∧ (_validate_date_object 2026
        (.ofList [("day", .int 29), ("month", .int 2), ("year", .int 2024)])).1 = true
    ∧ (_validate_date_object 2026
        (.ofList [("day", .int 29), ("month", .int 2), ("year", .int 2023)])).1 = false
    ∧ (∀ (cy : Int) (obj : Fields) (lbl : String),
        (dateFinding cy (.ofList [("dateOfBirth", .dict obj)]) "dateOfBirth" lbl).map
          Finding.valid = [some (_validate_date_object cy obj).1]) := by
  refine ⟨?_, ?_, by decide, by decide, by decide, ?_⟩
  · intro cy dd h
    unfold _validate_date_object
    rcases h with h | h | h <;> simp [h]
  · intro cy d m y hcy
    have hd : getD (Fields.ofList [("day", Value.int d), ("month", Value.int m),
        ("year", Value.int y)]) "day" (.str "") = .int d := rfl
    have hm : getD (Fields.ofList [("day", Value.int d), ("month", Value.int m),
        ("year", Value.int y)]) "month" (.str "") = .int m := rfl
    have hy : getD (Fields.ofList [("day", Value.int d), ("month", Value.int m),
        ("year", Value.int y)]) "year" (.str "") = .int y := rfl
    unfold _validate_date_object
    rw [hd, hm, hy]
    simp only [pyTruthy, pyToInt, datetimeOK, daysInMonth, isLeapYear,
      specRealCalendarDate, bne_iff_ne, beq_iff_eq, Bool.and_eq_true, Bool.or_eq_true,
      Bool.not_eq_true', decide_eq_true_eq, decide_eq_false_iff_not, ne_eq]
    split_ifs <;> simp_all <;> omega
  · intro cy obj lbl
    simp [dateFinding, getD, Fields.ofList]

/-- C3 witness: a date object with no components is reported invalid. -/
theorem c3_date_validation_witness :
    (_validate_date_object 2026 Fields.nil).1 = false :=
  c3_date_validation.1 2026 Fields.nil (Or.inl (by decide))

/-- A value recognised by `isStrB` is a string. -/
theorem isStrB_exists {v : Value} (h : isStrB v = true) : ∃ s, v = .str s := by
  cases v with
  | str s => exact ⟨s, rfl⟩
  | int n => exact absurd h (by simp [isStrB])
  | dict fs => exact absurd h (by simp [isStrB])
  | none => exact absurd h (by simp [isStrB])

/-- `_validate_personal_info` succeeds on well-formed records. -/
theorem personal_ok (data : Fields) (h : noTypeErrors data = true) :
    ∃ l, _validate_personal_info data = .ok l := by
  simp only [noTypeErrors, Bool.and_eq_true] at h
  obtain ⟨⟨⟨⟨⟨⟨⟨⟨⟨h1, h2⟩, h3⟩, -⟩, -⟩, h6⟩, -⟩, -⟩, -⟩, -⟩ := h
  obtain ⟨s1, e1⟩ := isStrB_exists h1
  obtain ⟨s2, e2⟩ := isStrB_exists h2
  obtain ⟨s3, e3⟩ := isStrB_exists h3
  unfold _validate_personal_info
  rw [e1, e2, e3]
  cases hid : pyTruthy (getD data "idNumber" (.str "")) with
  | false => simp only [hid]; exact ⟨_, rfl⟩
  | true =>
    rw [hid] at h6
    simp only [Bool.not_true, Bool.false_or] at h6
    obtain ⟨s0, e0⟩ := isStrB_exists h6
    have hid2 : pyTruthy (Value.str s0) = true := e0 ▸ hid
    simp only [e0, hid2]
    exact ⟨_, rfl⟩

/-- `_validate_contact_info` succeeds on well-formed records. -/
theorem contact_ok (data : Fields) (h : noTypeErrors data = true) :
    ∃ l, _validate_contact_info data = .ok l := by
  simp only [noTypeErrors, Bool.and_eq_true] at h
  obtain ⟨⟨⟨⟨-, h7⟩, h8⟩, -⟩, h10⟩ := h
  unfold _validate_contact_info
  generalize getD data "address" (.dict .nil) = av at h10 ⊢
  cases hll : pyTruthy (getD data "landlinePhone" (.str "")) with
  | false =>
    simp only [hll]
    cases hmb : pyTruthy (getD data "mobilePhone" (.str "")) with
    | false =>
      cases av with
      | dict a =>
        simp only [Bool.and_eq_true] at h10
        obtain ⟨st, est⟩ := isStrB_exists h10.1
        obtain ⟨ct, ect⟩ := isStrB_exists h10.2
        simp only [est, ect]
        exact ⟨_, rfl⟩
      | str s => exact ⟨_, rfl⟩
      | int n => exact ⟨_, rfl⟩
      | none => exact ⟨_, rfl⟩
    | true =>
      rw [hmb] at h8
      simp only [Bool.not_true, Bool.false_or] at h8
      obtain ⟨sm, em⟩ := isStrB_exists h8
      have hmb2 : pyTruthy (Value.str sm) = true := em ▸ hmb
      simp only [em, hmb2]
      cases av with
      | dict a =>
        simp only [Bool.and_eq_true] at h10
        obtain ⟨st, est⟩ := isStrB_exists h10.1
        obtain ⟨ct, ect⟩ := isStrB_exists h10.2
        simp only [est, ect]
        exact ⟨_, rfl⟩
      | str s => exact ⟨_, rfl⟩
      | int n => exact ⟨_, rfl⟩
      | none => exact ⟨_, rfl⟩
  | true =>
    rw [hll] at h7
    simp only [Bool.not_true, Bool.false_or] at h7
    obtain ⟨sl, el⟩ := isStrB_exists h7
    have hll2 : pyTruthy (Value.str sl) = true := el ▸ hll
    simp only [el, hll2]
    cases hmb : pyTruthy (getD data "mobilePhone" (.str "")) with
    | false =>
      cases av with
      | dict a =>
        simp only [Bool.and_eq_true] at h10
        obtain ⟨st, est⟩ := isStrB_exists h10.1
        obtain ⟨ct, ect⟩ := isStrB_exists h10.2
        simp only [est, ect]
        exact ⟨_, rfl⟩
      | str s => exact ⟨_, rfl⟩
      | int n => exact ⟨_, rfl⟩
      | none => exact ⟨_, rfl⟩
    | true =>
      rw [hmb] at h8
      simp only [Bool.not_true, Bool.false_or] at h8
      obtain ⟨sm, em⟩ := isStrB_exists h8
      have hmb2 : pyTruthy (Value.str sm) = true := em ▸ hmb
      simp only [em, hmb2]
      cases av with
      | dict a =>
        simp only [Bool.and_eq_true] at h10
        obtain ⟨st, est⟩ := isStrB_exists h10.1
        obtain ⟨ct, ect⟩ := isStrB_exists h10.2
        simp only [est, ect]
        exact ⟨_, rfl⟩
      | str s => exact ⟨_, rfl⟩
      | int n => exact ⟨_, rfl⟩
      | none => exact ⟨_, rfl⟩

/-- `_validate_accident_info` succeeds on well-formed records. -/
theorem accident_ok (data : Fields) (h : noTypeErrors data = true) :
    ∃ l, _validate_accident_info data = .ok l := by
  simp only [noTypeErrors, Bool.and_eq_true] at h
  obtain ⟨⟨⟨⟨⟨⟨⟨-, h4⟩, h5⟩, -⟩, -⟩, -⟩, h9⟩, -⟩ := h
  obtain ⟨s4, e4⟩ := isStrB_exists h4
  obtain ⟨s5, e5⟩ := isStrB_exists h5
  unfold _validate_accident_info
  rw [e4, e5]
  cases hti : pyTruthy (getD data "timeOfInjury" (.str "")) with
  | false => simp only [hti]; exact ⟨_, rfl⟩
  | true =>
    rw [hti] at h9
    simp only [Bool.not_true, Bool.false_or] at h9
    obtain ⟨s9, e9⟩ := isStrB_exists h9
    have hti2 : pyTruthy (Value.str s9) = true := e9 ▸ hti
    simp only [e9, hti2]
    exact ⟨_, rfl⟩

/-- C2 (amended).  `validate_extracted_data` returns a complete report
and never raises on every record whose checked scalar fields are
strings (`noTypeErrors`): missing fields and non-mapping date or
address values are tolerated, but a non-string scalar in a checked
field raises. -/
theorem c2_wellformed_never_raises (cy : Int) (self : DataValidator) (data : Fields)
    (h : noTypeErrors data = true) :
    ∃ r s2, validate_extracted_data cy self data = .ok (r, s2) := by
  obtain ⟨p, hp⟩ := personal_ok data h
  obtain ⟨c, hc⟩ := contact_ok data h
  obtain ⟨a, ha⟩ := accident_ok data h
  unfold validate_extracted_data
  rw [hp, hc, ha]
  exact ⟨_, _, rfl⟩

/-- C2 witness: the empty record is well-formed and validates without
an exception. -/
theorem c2_wellformed_never_raises_witness :
    ∃ r s2, validate_extracted_data 2026 DataValidator.init Fields.nil = .ok (r, s2) :=
  c2_wellformed_never_raises 2026 DataValidator.init Fields.nil (by decide)

/-- A singleton list is a prefix exactly when it is the head. -/
theorem singleton_isPrefixOf (c : Char) (l : List Char) :
    [c].isPrefixOf l = (l.head? == some c) := by
  cases l with
  | nil => rfl
  | cons x xs =>
    simp [List.isPrefixOf]
    exact eq_comm

/-- The mobile check in terms of remainder length and head. -/
theorem mobile_check_iff (r : List Char) :
    (r.length == 9 && ['5'].isPrefixOf r) = true ↔
      (r.length = 9 ∧ r.head? = some '5') := by
  simp [singleton_isPrefixOf]

/-- The landline check in terms of remainder length and head. -/
theorem landline_check_iff (r : List Char) :
    ((r.length == 8 || r.length == 9) && !(['5'].isPrefixOf r)) = true ↔
      ((r.length = 8 ∨ r.length = 9) ∧ r.head? ≠ some '5') := by
  simp [singleton_isPrefixOf]

/-- C4 (amended).  After keeping digits and `+` and dropping one
leading `+972`/`972`/`0`, the mobile finding is valid iff the
remaining string has length exactly 9 (a surviving `+` counts toward
the length) and starts with `5`; the landline finding is valid iff the
remaining length is 8 or 9 and it does not start with `5`; and for a
record with a non-empty phone string the corresponding finding carries
exactly `_validate_israeli_phone`'s verdict. -/
theorem c4_phone_validation :
    (∀ p : String, _validate_israeli_phone p true = true ↔
        ((specPhoneRemainder p).length = 9 ∧ (specPhoneRemainder p).head? = some '5'))
    ∧ (∀ p : String, _validate_israeli_phone p false = true ↔
        (((specPhoneRemainder p).length = 8 ∨ (specPhoneRemainder p).length = 9) ∧
         (specPhoneRemainder p).head? ≠ some '5'))
    ∧ (∀ p : String, p ≠ "" →
        (validate_extracted_data 2026 DataValidator.init
            (.ofList [("mobilePhone", Value.str p)])).map
          (fun x => (x.1.validation_details.filter (fun f => f.field == "mobilePhone")).map
            Finding.valid)
        = .ok [some (_validate_israeli_phone p true)])
    ∧ (∀ p : String, p ≠ "" →
        (validate_extracted_data 2026 DataValidator.init
            (.ofList [("landlinePhone", Value.str p)])).map
          (fun x => (x.1.validation_details.filter (fun f => f.field == "landlinePhone")).map
            Finding.valid)
        = .ok [some (_validate_israeli_phone p false)]) := by
  refine ⟨?_, ?_, ?_, ?_⟩
  · intro p
    exact mobile_check_iff (specPhoneRemainder p)
  · intro p
    exact landline_check_iff (specPhoneRemainder p)
  · intro p hp
    obtain ⟨l⟩ := p
    cases l with
    | nil => exact absurd rfl hp
    | cons c cs => rfl
  · intro p hp
    obtain ⟨l⟩ := p
    cases l with
    | nil => exact absurd rfl hp
    | cons c cs => rfl

/-- C4 witness: the spec's own example `"0501234567"`, as mobile and
as landline. -/
theorem c4_phone_validation_witness :
    (validate_extracted_data 2026 DataValidator.init
        (.ofList [("mobilePhone", Value.str "0501234567")])).map
      (fun x => (x.1.validation_details.filter (fun f => f.field == "mobilePhone")).map
        Finding.valid)
      = .ok [some (_validate_israeli_phone "0501234567" true)]
    ∧ (validate_extracted_data 2026 DataValidator.init
        (.ofList [("landlinePhone", Value.str "0501234567")])).map
      (fun x => (x.1.validation_details.filter (fun f => f.field == "landlinePhone")).map
        Finding.valid)
      = .ok [some (_validate_israeli_phone "0501234567" false)] :=
  ⟨c4_phone_validation.2.2.1 "0501234567" (by decide),
   c4_phone_validation.2.2.2 "0501234567" (by decide)⟩

/-- C10.  The gender finding is valid exactly when the trimmed value
is, case-sensitively, one of the eight accepted strings; other casings
such as `Male`, `FEMALE`, `m`, `f` are invalid. -/
theorem c10_gender_membership :
    (∀ g : String,
        (validate_extracted_data 2026 DataValidator.init
            (.ofList [("gender", Value.str g)])).map
          (fun x => (x.1.validation_details.filter (fun f => f.field == "gender")).map
            Finding.valid)
        = .ok [some (valid_genders.contains (pyStrip g))])
    ∧ (∀ g : String, valid_genders.contains (pyStrip g) = true ↔
        (pyStrip g = "זכר" ∨ pyStrip g = "נקבה" ∨ pyStrip g = "male" ∨
         pyStrip g = "female" ∨ pyStrip g = "M" ∨ pyStrip g = "F" ∨
         pyStrip g = "ז" ∨ pyStrip g = "נ"))
    ∧ valid_genders.contains (pyStrip "Male") = false
    ∧ valid_genders.contains (pyStrip "FEMALE") = false
    ∧ valid_genders.contains (pyStrip "m") = false
    ∧ valid_genders.contains (pyStrip "f") = false
    ∧ valid_genders.contains (pyStrip " M ") = true
    ∧ valid_genders.contains (pyStrip "זכר") = true := by
  refine ⟨?_, ?_, by decide, by decide, by decide, by decide, by decide, by decide⟩
  · intro g
    rfl
  · intro g
    simp [valid_genders]

/-- C7.  `validate({})` produces exactly the ten always-run findings
(no idNumber, landlinePhone, mobilePhone or timeOfInjury finding), a
completeness score of 0, and a summary listing the failing always-run
checks (the first five, plus an overflow trailer for the other
five). -/
theorem c7_empty_record_report :
    (validate_extracted_data 2026 DataValidator.init Fields.nil).map
      (fun p => (p.1.validation_details.map Finding.field,
                 p.1.completeness_score, p.1.summary))
    = .ok (["firstName", "lastName", "gender", "dateOfBirth", "dateOfInjury",
            "formFillingDate", "formReceiptDateAtClinic", "address",
            "accidentDescription", "injuredBodyPart"], 0,
           "Found 10 validation issues:\n- firstName: First name missing\n- lastName: Last name missing\n- gender: Invalid or missing gender\n- dateOfBirth: Date of birth: Incomplete date information\n- dateOfInjury: Date of injury: Incomplete date information\n... and 5 more issues.") ∧
    (validate_extracted_data 2026 DataValidator.init Fields.nil).map
      (fun p => p.1.validation_details.countP
        (fun f => f.field == "idNumber" || f.field == "landlinePhone" ||
                  f.field == "mobilePhone" || f.field == "timeOfInjury"))
    = .ok 0 := by
  decide

end NIIValidate
